import Mathlib

/-
Shallow embedding of the `skirt` synchronization library
(`src/once.rs`, `src/once_lock.rs`, `src/lazy_lock.rs`, `src/mutex.rs`)
and proofs of the specification claims about it.

The source code is concurrent; the embedding gives it a sequential
(single thread of control) semantics: an atomic register is a plain
field, a compare-exchange is a conditional read-modify-write, and a
spin-wait loop whose exit condition no other thread can ever make true
is non-termination, modelled by `none`.  An action passed to the
one-time barrier is a state transformer that may itself fail to
terminate (`Option`), and it observes the barrier in the state it has
while the action runs (`RUNNING`), exactly as the source closure does
between the winning compare-exchange and the `COMPLETE` store.
Undefined behaviour (reading a slot that was never written) is also
mapped to `none`.
-/

namespace Skirt

/-- `Once::INCOMPLETE` (`src/once.rs`): the `u8` constant `0`. -/
def ONCE_INCOMPLETE : Nat := 0

/-- `Once::RUNNING` (`src/once.rs`): the `u8` constant `1`. -/
def ONCE_RUNNING : Nat := 1

/-- `Once::COMPLETE` (`src/once.rs`): the `u8` constant `2`. -/
def ONCE_COMPLETE : Nat := 2

/-- `Once` (`src/once.rs`): a single atomic `u8` state register. -/
structure Once where
  state : Nat
deriving DecidableEq, Repr

/-- `Once::new()`: state starts at `INCOMPLETE`. -/
def Once.new : Once := ⟨ONCE_INCOMPLETE⟩

/-- `Once::is_completed()`: one load compared against `COMPLETE`. -/
def Once.is_completed (o : Once) : Bool := o.state == ONCE_COMPLETE

/-- Sequential embedding of `Once::call_once` (`src/once.rs`, lines 30-60).

Fast path: if `is_completed`, return at once without touching the action.
Otherwise compare-exchange `INCOMPLETE → RUNNING`: on success run the
action (which sees the register in state `RUNNING`), then store
`COMPLETE`.  On failure the source enters `while state == RUNNING`:
with no other thread to ever store `COMPLETE`, that loop never exits,
so a `RUNNING` register at this point is non-termination (`none`);
any other register value makes the loop exit immediately without
running the action.  An action returning `none` (itself
non-terminating) makes the whole call non-terminating. -/
def Once.call_once {σ : Type} (o : Once) (f : Once → σ → Option σ) (s : σ) :
    Option (Once × σ) :=
  if o.is_completed then some (o, s)
  else if o.state == ONCE_INCOMPLETE then
    match f ⟨ONCE_RUNNING⟩ s with
    | some s2 => some (⟨ONCE_COMPLETE⟩, s2)
    | none => none
  else if o.state == ONCE_RUNNING then none
  else some (o, s)

/-- A sequence of `call_once` invocations on one barrier, invocation `i`
carrying the action that appends `i` to an execution log (so the log
records exactly which invocations ran their action, in order).  If an
invocation does not terminate the sequence stops there. -/
def Once.runSeq (o : Once) (idxs : List Nat) (log : List Nat) :
    Once × List Nat :=
  match idxs with
  | [] => (o, log)
  | i :: rest =>
    match o.call_once (fun _ l => some (l ++ [i])) log with
    | some (o2, log2) => Once.runSeq o2 rest log2
    | none => (o, log)

/-- An action that re-enters `call_once` on the barrier it was handed
(the same barrier the enclosing `call_once` is running on). -/
def reentrantAction {σ : Type} (g : Once → σ → Option σ) :
    Once → σ → Option σ :=
  fun inner s => (inner.call_once g s).map Prod.snd

/-- `OnceLock<T>` (`src/once_lock.rs`): an embedded `Once` plus a
`MaybeUninit<T>` slot; `none` is the slot before any write. -/
structure OnceLock (α : Type) where
  once : Once
  data : Option α
deriving DecidableEq, Repr

/-- `OnceLock::new()`: fresh barrier, uninitialized slot. -/
def OnceLock.new {α : Type} : OnceLock α := ⟨Once.new, none⟩

/-- `OnceLock::is_initialized()`: delegates to `Once::is_completed`. -/
def OnceLock.is_initialized {α : Type} (c : OnceLock α) : Bool :=
  c.once.is_completed

/-- `OnceLock::get_unchecked()` (`assume_init_ref`): reads the slot; a
read of a never-written slot is undefined behaviour, modelled `none`. -/
def OnceLock.get_unchecked {α : Type} (c : OnceLock α) : Option α := c.data

/-- `OnceLock::get()`: the value if initialized, else `None`. -/
def OnceLock.get {α : Type} (c : OnceLock α) : Option α :=
  if c.is_initialized then c.get_unchecked else none

/-- `OnceLock::initialize(f)` (`src/once_lock.rs`, lines 89-98):
`call_once` with the closure that writes `f()` into the slot. -/
def OnceLock.initializeSlot {α : Type} (c : OnceLock α) (f : Unit → α) :
    Option (OnceLock α) :=
  (c.once.call_once (fun _ _ => some (some (f ()))) c.data).map
    (fun p => ⟨p.1, p.2⟩)

/-- `OnceLock::get_or_init(f)` (`src/once_lock.rs`, lines 43-52): run
`initialize` when not yet initialized, then read the slot unchecked.
Returns the updated cell and the returned reference's value. -/
def OnceLock.get_or_init {α : Type} (c : OnceLock α) (f : Unit → α) :
    Option (OnceLock α × α) :=
  match (if c.is_initialized then some c else c.initializeSlot f) with
  | none => none
  | some c2 =>
    match c2.get_unchecked with
    | some v => some (c2, v)
    | none => none

/-- `OnceLock::set(data)` (`src/once_lock.rs`, lines 57-65): `Err(data)`
(the value handed back) when already initialized, else initialize with
the value and return `Ok(())`.  Result pairs the updated cell with the
Rust `Result<(), T>`. -/
def OnceLock.set {α : Type} (c : OnceLock α) (v : α) :
    Option (OnceLock α × Except α Unit) :=
  if c.is_initialized then some (c, Except.error v)
  else (c.initializeSlot (fun _ => v)).map (fun c2 => (c2, Except.ok ()))

/-- `OnceLock::take()` (`src/once_lock.rs`, lines 73-82): `None` and no
change when not initialized; otherwise replace the barrier with a fresh
`Once::new()` and move the value out (`assume_init_read` leaves the
slot's bits in place). -/
def OnceLock.take {α : Type} (c : OnceLock α) : OnceLock α × Option α :=
  if !c.is_initialized then (c, none)
  else ({ c with once := Once.new }, c.data)

/-- `OnceLock::into_inner()`: delegates to `take`. -/
def OnceLock.into_inner {α : Type} (c : OnceLock α) : OnceLock α × Option α :=
  c.take

/-- `impl PartialEq for OnceLock` (`src/once_lock.rs`, lines 132-139):
equality delegates to `get()`. -/
def OnceLock.beq {α : Type} [BEq α] (a b : OnceLock α) : Bool :=
  a.get == b.get

/-- The reachable-state invariant of a `OnceLock`: the register is
`INCOMPLETE` or `COMPLETE` (never observed `RUNNING` between operations,
and never an illegal value), and the slot has been written whenever the
barrier is complete. -/
def OnceLock.wf {α : Type} (c : OnceLock α) : Bool :=
  (c.once.state == ONCE_INCOMPLETE || c.once.state == ONCE_COMPLETE)
    && (!c.is_initialized || c.data.isSome)

/-- The payload of the `Data<T, F>` union in `src/lazy_lock.rs`: either
the computed value or the pending initializer, discriminated by the
embedded `Once`. -/
inductive LazyData (α : Type) where
  | value : α → LazyData α
  | f : (Unit → α) → LazyData α

/-- Whether the union currently holds the computed value. -/
def LazyData.isValue {α : Type} : LazyData α → Bool
  | LazyData.value _ => true
  | LazyData.f _ => false

/-- `LazyLock<T, F>` (`src/lazy_lock.rs`) with `F = Unit → α`. -/
structure LazyLock (α : Type) where
  once : Once
  data : LazyData α

/-- `LazyLock::new(f)`: fresh barrier, union holds the initializer. -/
def LazyLock.new {α : Type} (f : Unit → α) : LazyLock α :=
  ⟨Once.new, LazyData.f f⟩

/-- `LazyLock::force` (`src/lazy_lock.rs`, lines 35-45): `call_once`
with the closure that takes the initializer out of the union, runs it
and stores the result as the value; then read the union as a value.
Reading the union through the wrong discriminant is undefined
behaviour, modelled `none`. -/
def LazyLock.force {α : Type} (l : LazyLock α) : Option (LazyLock α × α) :=
  match l.once.call_once
      (fun _ d =>
        match d with
        | LazyData.f g => some (LazyData.value (g ()))
        | LazyData.value _ => none) l.data with
  | none => none
  | some (o2, d2) =>
    match d2 with
    | LazyData.value v => some (⟨o2, d2⟩, v)
    | LazyData.f _ => none

/-- `LazyLock::get` (`src/lazy_lock.rs`, lines 59-65): the value only if
the barrier has completed; never runs the initializer. -/
def LazyLock.get {α : Type} (l : LazyLock α) : Option α :=
  if l.once.is_completed then
    match l.data with
    | LazyData.value v => some v
    | LazyData.f _ => none
  else none

/-- `Mutex<T>` (`src/mutex.rs`): an atomic boolean `lock` flag plus the
protected data. -/
structure Mutex (α : Type) where
  locked : Bool
  data : α
deriving DecidableEq, Repr

/-- `Mutex::new(data)`: unlocked. -/
def Mutex.new {α : Type} (a : α) : Mutex α := ⟨false, a⟩

/-- `Mutex::try_lock` (`src/mutex.rs`, lines 161-167): one
compare-exchange `false → true`; the `Bool` records whether a guard was
returned (`Some(MutexGuard)`) or not (`None`). -/
def Mutex.try_lock {α : Type} (m : Mutex α) : Mutex α × Bool :=
  if m.locked == false then ({ m with locked := true }, true) else (m, false)

/-- `MutexGuard::drop` (`src/mutex.rs`, lines 278-283): stores `false`
into the lock flag. -/
def MutexGuard.drop {α : Type} (m : Mutex α) : Mutex α :=
  { m with locked := false }

/-- `Mutex::lock` (`src/mutex.rs`): `while self.try_lock().is_none()`
retries until `try_lock` succeeds, then returns `MutexGuard::new(self)`.
Sequentially an already-locked mutex never becomes free, so the loop
never exits (`none`).  On success the `Some(guard)` temporary produced
inside the `while` condition is dropped at the end of the condition (a
Rust temporary scope), storing `false` back into the flag, and the
guard actually returned is built by `MutexGuard::new` without touching
the flag. -/
def Mutex.lock {α : Type} (m : Mutex α) : Option (Mutex α) :=
  match m.try_lock with
  | (m2, true) => some (MutexGuard.drop m2)
  | (_, false) => none

/-- `Mutex::get_cloned` (`src/mutex.rs`, lines 56-61): lock, clone the
interior value, drop the guard.  Returns the mutex after the guard drop
and the clone. -/
def Mutex.get_cloned {α : Type} (m : Mutex α) : Option (Mutex α × α) :=
  (m.lock).map (fun l => (MutexGuard.drop l, l.data))

/-- `Mutex::replace` (`src/mutex.rs`, lines 74-76): lock,
`mem::replace` the interior with the new value, drop the guard, return
the previous value. -/
def Mutex.replace {α : Type} (m : Mutex α) (v : α) : Option (Mutex α × α) :=
  (m.lock).map (fun l => (MutexGuard.drop { l with data := v }, l.data))

theorem call_once_of_completed {σ : Type} (o : Once)
    (f : Once → σ → Option σ) (s : σ) (h : o.is_completed = true) :
    o.call_once f s = some (o, s) := by
  simp [Once.call_once, h]

theorem runSeq_of_completed (o : Once) (idxs : List Nat) (log : List Nat)
    (h : o.is_completed = true) : o.runSeq idxs log = (o, log) := by
  induction idxs with
  | nil => rfl
  | cons i rest ih =>
    simp [Once.runSeq, call_once_of_completed o _ log h, ih]

theorem completed_mk_complete : (Once.mk ONCE_COMPLETE).is_completed = true := by
  decide

/-- C1: for every barrier: (a) if the state is already `Complete` on entry,
`call_once` returns without invoking the action, leaving barrier and
instrumentation state untouched; (b) whenever a `call_once` invocation
on a barrier whose register holds one of the three legal values
returns, `is_completed()` afterwards returns `true`; (c) over any
non-empty sequence of `call_once` invocations on a fresh barrier, the
action of exactly one invocation executes, namely the first one (the one
that finds the state `Incomplete`). -/
theorem c1_call_once_exactly_once :
    (∀ {σ : Type} (o : Once) (f : Once → σ → Option σ) (s : σ),
      o.is_completed = true → o.call_once f s = some (o, s)) ∧
    (∀ {σ : Type} (o : Once) (f : Once → σ → Option σ) (s : σ)
        (o2 : Once) (s2 : σ),
      o.state ≤ ONCE_COMPLETE →
      o.call_once f s = some (o2, s2) → o2.is_completed = true) ∧
    (∀ (i : Nat) (rest : List Nat),
      Once.new.runSeq (i :: rest) [] = (⟨ONCE_COMPLETE⟩, [i])) := by
  refine ⟨fun o f s h => call_once_of_completed o f s h, ?_, ?_⟩
  · intro σ o f s o2 s2 hle h
    by_cases hc : o.is_completed = true
    · rw [call_once_of_completed o f s hc] at h
      cases h
      exact hc
    · simp only [Once.call_once, hc, Bool.false_eq_true, if_false] at h
      by_cases h0 : (o.state == ONCE_INCOMPLETE) = true
      · simp only [h0, if_true] at h
        cases hf : f ⟨ONCE_RUNNING⟩ s with
        | none => rw [hf] at h; cases h
        | some s3 =>
          rw [hf] at h
          cases h
          decide
      · simp only [h0, if_false] at h
        by_cases h1 : (o.state == ONCE_RUNNING) = true
        · simp [h1] at h
        · simp only [Once.is_completed, ONCE_COMPLETE, ONCE_INCOMPLETE,
            ONCE_RUNNING, beq_iff_eq] at hc h0 h1
          simp only [ONCE_COMPLETE] at hle
          omega
  · intro i rest
    have hfirst : Once.new.call_once
        (fun _ l => some (l ++ [i])) ([] : List Nat)
        = some (⟨ONCE_COMPLETE⟩, [i]) := by
      simp [Once.call_once, Once.new, Once.is_completed,
        ONCE_INCOMPLETE, ONCE_COMPLETE]
    simp [Once.runSeq, hfirst,
      runSeq_of_completed ⟨ONCE_COMPLETE⟩ rest [i] completed_mk_complete]

/-- C1 witness at concrete inputs. -/
theorem c1_call_once_exactly_once_witness :
    (Once.mk ONCE_COMPLETE).call_once
        (fun _ (l : List Nat) => some (l ++ [7])) []
      = some (⟨ONCE_COMPLETE⟩, []) ∧
    (Once.mk ONCE_COMPLETE).is_completed = true ∧
    Once.new.runSeq [0, 1, 2] [] = (⟨ONCE_COMPLETE⟩, [0]) :=
  ⟨c1_call_once_exactly_once.1 (Once.mk ONCE_COMPLETE) _ [] (by decide),
   c1_call_once_exactly_once.2.1 Once.new
     (fun _ (l : List Nat) => some (l ++ [7])) [] ⟨ONCE_COMPLETE⟩ [7]
     (by decide) (by decide),
   c1_call_once_exactly_once.2.2 0 [1, 2]⟩

/-- C10: `call_once` is not re-entrant.  On a barrier in state `RUNNING`
the wait loop exits only on `Complete`, which never comes, so the call
never terminates; consequently an action that calls back into
`call_once` on the same barrier (which it observes in state `RUNNING`)
makes the outer `call_once` from `Incomplete` never terminate.
Termination of an invocation from `Incomplete` therefore requires the
precondition that the action does not re-enter the same barrier. -/
theorem c10_call_once_not_reentrant :
    (∀ {σ : Type} (g : Once → σ → Option σ) (s : σ),
      (Once.mk ONCE_RUNNING).call_once g s = none) ∧
    (∀ {σ : Type} (g : Once → σ → Option σ) (s : σ) (o : Once),
      o.state = ONCE_INCOMPLETE →
      o.call_once (reentrantAction g) s = none) := by
  constructor
  · intro σ g s
    simp [Once.call_once, Once.is_completed,
      ONCE_RUNNING, ONCE_INCOMPLETE, ONCE_COMPLETE]
  · intro σ g s o h
    simp [Once.call_once, Once.is_completed, h, reentrantAction,
      ONCE_RUNNING, ONCE_INCOMPLETE, ONCE_COMPLETE]

/-- C10 witness at a concrete barrier and action. -/
theorem c10_call_once_not_reentrant_witness :
    Once.new.call_once (reentrantAction (fun _ (n : Nat) => some n)) 0
      = none :=
  c10_call_once_not_reentrant.2 (fun _ n => some n) 0 Once.new (by decide)

/-- C2: (a) from any legal register value, `call_once` leaves the
register legal and non-decreasing; (b) entered from `Incomplete`, the
action observes exactly `RUNNING` and the returning register is exactly
`COMPLETE` (the strict `Incomplete → Running → Complete` path); (c) the
single exception: `OnceLock::take` on an initialized cell replaces the
barrier with a fresh `Incomplete` one while extracting the payload, and
on an uninitialized cell changes nothing. -/
theorem c2_state_monotone :
    (∀ {σ : Type} (o : Once) (f : Once → σ → Option σ) (s : σ)
        (o2 : Once) (s2 : σ),
      o.state ≤ ONCE_COMPLETE → o.call_once f s = some (o2, s2) →
      o.state ≤ o2.state ∧ o2.state ≤ ONCE_COMPLETE) ∧
    (∀ {σ : Type} (o : Once) (f : Once → σ → Option σ) (s : σ),
      o.state = ONCE_INCOMPLETE →
      o.call_once f s
        = (f ⟨ONCE_RUNNING⟩ s).map (fun s2 => (⟨ONCE_COMPLETE⟩, s2))) ∧
    (∀ {α : Type} (c : OnceLock α),
      (c.is_initialized = true → (c.take).1.once = Once.new) ∧
      (c.is_initialized = false → c.take = (c, none))) := by
  refine ⟨?_, ?_, ?_⟩
  · intro σ o f s o2 s2 hle h
    by_cases hc : o.is_completed = true
    · rw [call_once_of_completed o f s hc] at h
      cases h
      exact ⟨Nat.le_refl _, hle⟩
    · simp only [Once.call_once, hc, Bool.false_eq_true, if_false] at h
      by_cases h0 : (o.state == ONCE_INCOMPLETE) = true
      · simp only [h0, if_true] at h
        cases hf : f ⟨ONCE_RUNNING⟩ s with
        | none => rw [hf] at h; cases h
        | some s3 =>
          rw [hf] at h
          cases h
          simp only [beq_iff_eq] at h0
          rw [h0]
          exact ⟨by decide, by decide⟩
      · simp only [h0, if_false] at h
        by_cases h1 : (o.state == ONCE_RUNNING) = true
        · simp [h1] at h
        · simp only [h1, if_false] at h
          cases h
          exact ⟨Nat.le_refl _, hle⟩
  · intro σ o f s h
    simp only [Once.call_once, Once.is_completed, h]
    cases f ⟨ONCE_RUNNING⟩ s <;> rfl
  · intro α c
    constructor
    · intro h
      simp [OnceLock.take, h]
    · intro h
      simp [OnceLock.take, h]

/-- C2 witness at concrete inputs. -/
theorem c2_state_monotone_witness :
    (Once.new.state ≤ (Once.mk ONCE_COMPLETE).state
        ∧ (Once.mk ONCE_COMPLETE).state ≤ ONCE_COMPLETE) ∧
    Once.new.call_once (fun _ (n : Nat) => some (n + 1)) 5
      = ((fun (_ : Once) (n : Nat) => some (n + 1)) ⟨ONCE_RUNNING⟩ 5).map
          (fun s2 => (⟨ONCE_COMPLETE⟩, s2)) ∧
    (OnceLock.mk ⟨ONCE_COMPLETE⟩ (some 3) : OnceLock Nat).take.1.once
      = Once.new ∧
    (OnceLock.new : OnceLock Nat).take = (OnceLock.new, none) :=
  ⟨c2_state_monotone.1 Once.new (fun _ (n : Nat) => some (n + 1)) 5
      ⟨ONCE_COMPLETE⟩ 6 (by decide) (by decide),
   c2_state_monotone.2.1 Once.new (fun _ (n : Nat) => some (n + 1)) 5
      (by decide),
   (c2_state_monotone.2.2 (OnceLock.mk ⟨ONCE_COMPLETE⟩ (some 3))).1
      (by decide),
   (c2_state_monotone.2.2 (OnceLock.new : OnceLock Nat)).2 (by decide)⟩

theorem wf_uninit_state {α : Type} (c : OnceLock α) (hwf : c.wf = true)
    (h : c.is_initialized = false) : c.once.state = ONCE_INCOMPLETE := by
  simp only [OnceLock.wf, Bool.and_eq_true, Bool.or_eq_true,
    beq_iff_eq] at hwf
  simp only [OnceLock.is_initialized, Once.is_completed,
    beq_eq_false_iff_ne, ne_eq] at h
  rcases hwf.1 with h0 | h2
  · exact h0
  · exact absurd h2 h

theorem wf_init_data {α : Type} (c : OnceLock α) (hwf : c.wf = true)
    (h : c.is_initialized = true) : c.data.isSome = true := by
  simp only [OnceLock.wf, Bool.and_eq_true, Bool.or_eq_true, h,
    Bool.not_true, Bool.false_or] at hwf
  exact hwf.2

theorem initializeSlot_incomplete {α : Type} (c : OnceLock α) (f : Unit → α)
    (h : c.once.state = ONCE_INCOMPLETE) :
    c.initializeSlot f = some ⟨⟨ONCE_COMPLETE⟩, some (f ())⟩ := by
  simp [OnceLock.initializeSlot, Once.call_once, Once.is_completed, h,
    ONCE_INCOMPLETE, ONCE_COMPLETE]

theorem set_uninit {α : Type} (c : OnceLock α) (v : α)
    (h : c.once.state = ONCE_INCOMPLETE) :
    c.set v = some (⟨⟨ONCE_COMPLETE⟩, some v⟩, Except.ok ()) := by
  have hni : c.is_initialized = false := by
    simp [OnceLock.is_initialized, Once.is_completed, h,
      ONCE_INCOMPLETE, ONCE_COMPLETE]
  simp [OnceLock.set, hni, initializeSlot_incomplete c _ h]

theorem get_mk_complete {α : Type} (v : α) :
    (OnceLock.mk ⟨ONCE_COMPLETE⟩ (some v)).get = some v := by
  simp [OnceLock.get, OnceLock.get_unchecked, OnceLock.is_initialized,
    Once.is_completed]

/-- C5: `set(v)` fails, handing the unchanged `v` back as the error and
leaving the cell untouched, exactly when the cell was already
initialized; otherwise it succeeds (`Ok(())`) and afterwards the cell is
initialized with exactly `v` (`get()` returns it). -/
theorem c5_set_fails_iff_initialized {α : Type} (c : OnceLock α) (v : α)
    (hwf : c.wf = true) :
    (c.is_initialized = true → c.set v = some (c, Except.error v)) ∧
    (c.is_initialized = false →
      c.set v = some (⟨⟨ONCE_COMPLETE⟩, some v⟩, Except.ok ())
        ∧ (OnceLock.mk ⟨ONCE_COMPLETE⟩ (some v)).get = some v) := by
  constructor
  · intro h
    simp [OnceLock.set, h]
  · intro h
    exact ⟨set_uninit c v (wf_uninit_state c hwf h), get_mk_complete v⟩

/-- C5 witness at a concrete cell and value. -/
theorem c5_set_fails_iff_initialized_witness :
    (OnceLock.mk ⟨ONCE_COMPLETE⟩ (some 1) : OnceLock Nat).set 9
        = some (OnceLock.mk ⟨ONCE_COMPLETE⟩ (some 1), Except.error 9) ∧
    ((OnceLock.new : OnceLock Nat).set 9
        = some (⟨⟨ONCE_COMPLETE⟩, some 9⟩, Except.ok ())
      ∧ (OnceLock.mk ⟨ONCE_COMPLETE⟩ (some 9)).get = some 9) :=
  ⟨(c5_set_fails_iff_initialized (OnceLock.mk ⟨ONCE_COMPLETE⟩ (some 1)) 9
      (by decide)).1 (by decide),
   (c5_set_fails_iff_initialized (OnceLock.new : OnceLock Nat) 9
      (by decide)).2 (by decide)⟩

/-- C4: the write-once round trip.  `new(); set(v)` succeeds and `get()`
returns `Some(v)`; `take()` then returns `Some(v)` and leaves a cell
that compares equal to a fresh empty cell and reads as empty; a
subsequent `set(v2)` on it succeeds and `get()` returns `Some(v2)`;
`take()` on an uninitialized cell returns `None` and changes nothing. -/
theorem c4_round_trip {α : Type} [BEq α] (v v2 : α) :
    (OnceLock.new : OnceLock α).set v
        = some (⟨⟨ONCE_COMPLETE⟩, some v⟩, Except.ok ()) ∧
    (OnceLock.mk ⟨ONCE_COMPLETE⟩ (some v)).get = some v ∧
    (OnceLock.mk ⟨ONCE_COMPLETE⟩ (some v)).take
        = (⟨Once.new, some v⟩, some v) ∧
    (OnceLock.mk Once.new (some v)).beq OnceLock.new = true ∧
    (OnceLock.mk Once.new (some v)).get = none ∧
    (OnceLock.mk Once.new (some v)).set v2
        = some (⟨⟨ONCE_COMPLETE⟩, some v2⟩, Except.ok ()) ∧
    (OnceLock.mk ⟨ONCE_COMPLETE⟩ (some v2)).get = some v2 ∧
    (OnceLock.new : OnceLock α).take = (OnceLock.new, none) := by
  have hempty : ∀ w : α, (OnceLock.mk Once.new (some w)).get = none := by
    intro w
    simp [OnceLock.get, OnceLock.is_initialized, Once.is_completed, Once.new,
      ONCE_INCOMPLETE, ONCE_COMPLETE]
  refine ⟨?_, get_mk_complete v, ?_, ?_, hempty v, ?_, get_mk_complete v2, ?_⟩
  · exact set_uninit (OnceLock.new : OnceLock α) v rfl
  · simp [OnceLock.take, OnceLock.is_initialized, Once.is_completed]
  · simp [OnceLock.beq, hempty v, OnceLock.new, OnceLock.get,
      OnceLock.is_initialized, Once.is_completed, Once.new,
      ONCE_INCOMPLETE, ONCE_COMPLETE]
  · exact set_uninit (OnceLock.mk Once.new (some v)) v2 rfl
  · simp [OnceLock.take, OnceLock.is_initialized, Once.is_completed,
      OnceLock.new, Once.new, ONCE_INCOMPLETE, ONCE_COMPLETE]

/-- C4 witness at concrete values. -/
theorem c4_round_trip_witness :
    (OnceLock.new : OnceLock Nat).set 7
        = some (⟨⟨ONCE_COMPLETE⟩, some 7⟩, Except.ok ()) ∧
    (OnceLock.mk ⟨ONCE_COMPLETE⟩ (some (7 : Nat))).get = some 7 ∧
    (OnceLock.mk ⟨ONCE_COMPLETE⟩ (some (7 : Nat))).take
        = (⟨Once.new, some 7⟩, some 7) ∧
    (OnceLock.mk Once.new (some (7 : Nat))).beq OnceLock.new = true ∧
    (OnceLock.mk Once.new (some (7 : Nat))).get = none ∧
    (OnceLock.mk Once.new (some (7 : Nat))).set 8
        = some (⟨⟨ONCE_COMPLETE⟩, some 8⟩, Except.ok ()) ∧
    (OnceLock.mk ⟨ONCE_COMPLETE⟩ (some (8 : Nat))).get = some 8 ∧
    (OnceLock.new : OnceLock Nat).take = (OnceLock.new, none) :=
  c4_round_trip 7 8

/-- C6: `get_or_init(f)` runs `f` via the barrier and stores its result
when the cell was uninitialized; when already initialized it never
invokes `f` (its result does not depend on `f` at all) and returns the
stored value; in both cases it returns the value the cell holds after
the call, and afterwards the cell is initialized. -/
theorem c6_get_or_init {α : Type} (c : OnceLock α) (f g : Unit → α)
    (hwf : c.wf = true) :
    (c.is_initialized = false →
      c.get_or_init f = some (⟨⟨ONCE_COMPLETE⟩, some (f ())⟩, f ())) ∧
    (c.is_initialized = true →
      c.get_or_init f = c.get_or_init g ∧
      ∃ w, c.data = some w ∧ c.get_or_init f = some (c, w)
        ∧ c.get = some w) ∧
    (∀ (c2 : OnceLock α) (w : α), c.get_or_init f = some (c2, w) →
      c2.is_initialized = true ∧ c2.get = some w) := by
  refine ⟨?_, ?_, ?_⟩
  · intro h
    simp [OnceLock.get_or_init, h, OnceLock.get_unchecked,
      initializeSlot_incomplete c f (wf_uninit_state c hwf h)]
  · intro h
    obtain ⟨w, hw⟩ := Option.isSome_iff_exists.mp (wf_init_data c hwf h)
    refine ⟨?_, w, hw, ?_, ?_⟩
    · simp [OnceLock.get_or_init, h]
    · simp [OnceLock.get_or_init, h, OnceLock.get_unchecked, hw]
    · simp [OnceLock.get, h, OnceLock.get_unchecked, hw]
  · intro c2 w hres
    by_cases h : c.is_initialized = true
    · obtain ⟨w0, hw0⟩ := Option.isSome_iff_exists.mp (wf_init_data c hwf h)
      simp only [OnceLock.get_or_init, h, if_true, OnceLock.get_unchecked,
        hw0] at hres
      cases hres
      exact ⟨h, by simp [OnceLock.get, h, OnceLock.get_unchecked, hw0]⟩
    · rw [Bool.not_eq_true] at h
      simp only [OnceLock.get_or_init, h, Bool.false_eq_true, if_false,
        initializeSlot_incomplete c f (wf_uninit_state c hwf h),
        OnceLock.get_unchecked] at hres
      cases hres
      exact ⟨by simp [OnceLock.is_initialized, Once.is_completed],
        get_mk_complete (f ())⟩

/-- C6 witness at a concrete cell and initializers. -/
theorem c6_get_or_init_witness :
    ((OnceLock.new : OnceLock Nat).get_or_init (fun _ => 42)
        = some (⟨⟨ONCE_COMPLETE⟩, some 42⟩, 42)) ∧
    ((OnceLock.mk ⟨ONCE_COMPLETE⟩ (some 5)).get_or_init (fun _ => 42)
        = (OnceLock.mk ⟨ONCE_COMPLETE⟩ (some 5)).get_or_init
            (fun _ => 43)) ∧
    ((OnceLock.mk ⟨ONCE_COMPLETE⟩ (some 42)).is_initialized = true
      ∧ (OnceLock.mk ⟨ONCE_COMPLETE⟩ (some 42)).get = some 42) :=
  ⟨(c6_get_or_init (OnceLock.new : OnceLock Nat) (fun _ => 42)
      (fun _ => 43) (by decide)).1 (by decide),
   ((c6_get_or_init (OnceLock.mk ⟨ONCE_COMPLETE⟩ (some 5)) (fun _ => 42)
      (fun _ => 43) (by decide)).2.1 (by decide)).1,
   (c6_get_or_init (OnceLock.new : OnceLock Nat) (fun _ => 42)
      (fun _ => 43) (by decide)).2.2 ⟨⟨ONCE_COMPLETE⟩, some 42⟩ 42
      (by decide)⟩

/-- C9: `OnceLock` equality delegates to `get()`: two uninitialized
cells compare equal; an initialized cell never compares equal to an
uninitialized one (either way round); two initialized cells compare
equal exactly when their stored values do. -/
theorem c9_eq_delegates_to_get {α : Type} [BEq α] (a b : OnceLock α)
    (hwa : a.wf = true) (hwb : b.wf = true) :
    (a.is_initialized = false → b.is_initialized = false →
      a.beq b = true) ∧
    (a.is_initialized = true → b.is_initialized = false →
      a.beq b = false) ∧
    (a.is_initialized = false → b.is_initialized = true →
      a.beq b = false) ∧
    (∀ x y, a.data = some x → b.data = some y →
      a.is_initialized = true → b.is_initialized = true →
      a.beq b = (x == y)) := by
  refine ⟨?_, ?_, ?_, ?_⟩
  · intro ha hb
    simp [OnceLock.beq, OnceLock.get, ha, hb]
  · intro ha hb
    obtain ⟨x, hx⟩ := Option.isSome_iff_exists.mp (wf_init_data a hwa ha)
    simp [OnceLock.beq, OnceLock.get, ha, hb, OnceLock.get_unchecked, hx]
  · intro ha hb
    obtain ⟨y, hy⟩ := Option.isSome_iff_exists.mp (wf_init_data b hwb hb)
    simp [OnceLock.beq, OnceLock.get, ha, hb, OnceLock.get_unchecked, hy]
  · intro x y hx hy ha hb
    simp [OnceLock.beq, OnceLock.get, ha, hb, OnceLock.get_unchecked, hx, hy]

/-- C9 witness at concrete cells. -/
theorem c9_eq_delegates_to_get_witness :
    ((OnceLock.new : OnceLock Nat).beq OnceLock.new = true) ∧
    ((OnceLock.mk ⟨ONCE_COMPLETE⟩ (some 4)).beq (OnceLock.new : OnceLock Nat)
      = false) ∧
    ((OnceLock.new : OnceLock Nat).beq (OnceLock.mk ⟨ONCE_COMPLETE⟩ (some 4))
      = false) ∧
    ((OnceLock.mk ⟨ONCE_COMPLETE⟩ (some 4)).beq
        (OnceLock.mk ⟨ONCE_COMPLETE⟩ (some 4)) = ((4 : Nat) == 4)) ∧
    ((OnceLock.mk ⟨ONCE_COMPLETE⟩ (some 4)).beq
        (OnceLock.mk ⟨ONCE_COMPLETE⟩ (some 5)) = ((4 : Nat) == 5)) :=
  ⟨(c9_eq_delegates_to_get (OnceLock.new : OnceLock Nat) OnceLock.new
      (by decide) (by decide)).1 (by decide) (by decide),
   (c9_eq_delegates_to_get (OnceLock.mk ⟨ONCE_COMPLETE⟩ (some 4))
      (OnceLock.new : OnceLock Nat) (by decide) (by decide)).2.1
      (by decide) (by decide),
   (c9_eq_delegates_to_get (OnceLock.new : OnceLock Nat)
      (OnceLock.mk ⟨ONCE_COMPLETE⟩ (some 4)) (by decide) (by decide)).2.2.1
      (by decide) (by decide),
   (c9_eq_delegates_to_get (OnceLock.mk ⟨ONCE_COMPLETE⟩ (some 4))
      (OnceLock.mk ⟨ONCE_COMPLETE⟩ (some 4)) (by decide) (by decide)).2.2.2
      4 4 rfl rfl (by decide) (by decide),
   (c9_eq_delegates_to_get (OnceLock.mk ⟨ONCE_COMPLETE⟩ (some 4))
      (OnceLock.mk ⟨ONCE_COMPLETE⟩ (some 5)) (by decide) (by decide)).2.2.2
      4 5 rfl rfl (by decide) (by decide)⟩

/-- C3: for a `LazyLock` built from initializer `f`: `get()` before any
forcing access returns `None` (and, being a pure read of the
discriminant, triggers no computation); the first `force` runs `f`
once, stores its result as the union's value (consuming the
initializer, which no longer exists in the resulting lock) and returns
it; every access to the forced lock — `force` (the transparent
dereference path) or `get` — returns that same stored value, the lock
unchanged, with no initializer left to invoke. -/
theorem c3_lazy_force_once {α : Type} (f : Unit → α) :
    LazyLock.get (LazyLock.new f) = none ∧
    LazyLock.force (LazyLock.new f)
      = some (⟨⟨ONCE_COMPLETE⟩, LazyData.value (f ())⟩, f ()) ∧
    (∀ (l : LazyLock α) (v : α),
      l.once.is_completed = true → l.data = LazyData.value v →
      l.force = some (l, v) ∧ l.get = some v) := by
  refine ⟨?_, ?_, ?_⟩
  · simp [LazyLock.get, LazyLock.new, Once.new, Once.is_completed,
      ONCE_INCOMPLETE, ONCE_COMPLETE]
  · simp [LazyLock.force, LazyLock.new, Once.call_once, Once.new,
      Once.is_completed, ONCE_INCOMPLETE, ONCE_COMPLETE]
  · intro l v hc hd
    obtain ⟨o, d⟩ := l
    simp only at hc hd
    subst hd
    constructor
    · simp [LazyLock.force,
        call_once_of_completed o _ (LazyData.value v) hc]
    · simp [LazyLock.get, hc]

/-- C3 witness at a concrete initializer and forced lock. -/
theorem c3_lazy_force_once_witness :
    LazyLock.get (LazyLock.new (fun _ => (42 : Nat))) = none ∧
    (LazyLock.mk ⟨ONCE_COMPLETE⟩ (LazyData.value (42 : Nat))).force
        = some (LazyLock.mk ⟨ONCE_COMPLETE⟩ (LazyData.value 42), 42) ∧
    (LazyLock.mk ⟨ONCE_COMPLETE⟩ (LazyData.value (42 : Nat))).get
        = some 42 :=
  ⟨(c3_lazy_force_once (fun _ => (42 : Nat))).1,
   ((c3_lazy_force_once (fun _ => (42 : Nat))).2.2
      (LazyLock.mk ⟨ONCE_COMPLETE⟩ (LazyData.value 42)) 42
      (by decide) rfl).1,
   ((c3_lazy_force_once (fun _ => (42 : Nat))).2.2
      (LazyLock.mk ⟨ONCE_COMPLETE⟩ (LazyData.value 42)) 42
      (by decide) rfl).2⟩

/-- C7: `try_lock` is a single compare-exchange with no wait (the
embedding is a total function): it returns "not acquired" exactly when
the locked flag is already `true`, leaving the mutex unchanged;
otherwise it returns a guard with the flag set `true`; and immediately
after a guard drop (flag stored `false`) a `try_lock` succeeds. -/
theorem c7_try_lock_non_blocking {α : Type} (m : Mutex α) :
    ((m.try_lock).2 = false ↔ m.locked = true) ∧
    (m.locked = true → m.try_lock = (m, false)) ∧
    (m.locked = false → m.try_lock = ({ m with locked := true }, true)) ∧
    (MutexGuard.drop m).try_lock = ({ m with locked := true }, true) := by
  refine ⟨?_, ?_, ?_, ?_⟩
  · cases h : m.locked <;> simp [Mutex.try_lock, h]
  · intro h
    simp [Mutex.try_lock, h]
  · intro h
    simp [Mutex.try_lock, h]
  · simp [Mutex.try_lock, MutexGuard.drop]

/-- C7 witness at concrete mutexes. -/
theorem c7_try_lock_non_blocking_witness :
    (Mutex.mk true (0 : Nat)).try_lock = (Mutex.mk true 0, false) ∧
    (Mutex.mk false (0 : Nat)).try_lock = (Mutex.mk true 0, true) ∧
    (MutexGuard.drop (Mutex.mk true (0 : Nat))).try_lock
      = (Mutex.mk true 0, true) :=
  ⟨(c7_try_lock_non_blocking (Mutex.mk true (0 : Nat))).2.1 rfl,
   (c7_try_lock_non_blocking (Mutex.mk false (0 : Nat))).2.2.1 rfl,
   (c7_try_lock_non_blocking (Mutex.mk true (0 : Nat))).2.2.2⟩

/-- C8: on an unlocked mutex holding `old`, `replace(new)` returns
`old`, and afterwards the mutex stores `new` (`get_cloned` returns it)
and is unlocked again, the internally acquired guard having been
released. -/
theorem c8_replace_swaps {α : Type} (m : Mutex α) (v : α)
    (h : m.locked = false) :
    m.replace v = some (Mutex.mk false v, m.data) ∧
    (Mutex.mk false v).get_cloned = some (Mutex.mk false v, v) ∧
    (Mutex.mk false v).locked = false := by
  refine ⟨?_, ?_, rfl⟩
  · simp [Mutex.replace, Mutex.lock, Mutex.try_lock, MutexGuard.drop, h]
  · simp [Mutex.get_cloned, Mutex.lock, Mutex.try_lock, MutexGuard.drop]

/-- C8 witness at a concrete mutex and value. -/
theorem c8_replace_swaps_witness :
    (Mutex.mk false (7 : Nat)).replace 11 = some (Mutex.mk false 11, 7) ∧
    (Mutex.mk false (11 : Nat)).get_cloned
      = some (Mutex.mk false 11, 11) ∧
    (Mutex.mk false (11 : Nat)).locked = false :=
  c8_replace_swaps (Mutex.mk false (7 : Nat)) 11 rfl

end Skirt
